import Mathlib

/-!
Verification of the DNS uptime monitor (`intodnspy.py`).

We give a shallow embedding of the statistics engine (`LatencyStats`,
`UptimeStats`), the per-probe update-and-analyze path
(`DNSUptimerAI._check_and_analyze`), the probe boundary
(`DNSUptimerAI._resolve_once`) and a timed trace model of the monitor
loop (`DNSUptimerAI.run_loop`), and prove or refute the specified
properties.  Latencies and times are modelled as rationals (the Python
floats carry exact decimal constants in every branch the claims touch);
the standard deviation, hence the z-score, lives in `ℝ` because of the
square root.
-/

namespace DNSUptimer

/-- Append on a `collections.deque` with `maxlen = cap`: when the deque is
full the oldest (leftmost) element is evicted first. -/
def dequeAppend {α : Type} (cap : ℕ) (l : List α) (v : α) : List α :=
  if l.length < cap then l ++ [v] else l.tail ++ [v]

/-- Arithmetic mean of a list, as in `statistics.mean` (0 on the empty
list; the sole call site guards `len ≥ 10`). -/
def mean (l : List ℚ) : ℚ :=
  l.sum / l.length

/-- Population variance, as computed inside `statistics.pstdev`. -/
def pvariance (l : List ℚ) : ℚ :=
  (l.map (fun x => (x - mean l) ^ 2)).sum / l.length

/-- Population standard deviation, `statistics.pstdev`. -/
noncomputable def pstdev (l : List ℚ) : ℝ :=
  Real.sqrt ((pvariance l : ℚ) : ℝ)

/-- The `LatencyStats` dataclass.  `samples` is a `deque(maxlen=200)`;
the wall-clock field `last_anomaly_ts` is not modelled (no real time in
the embedding). -/
structure LatencyStats where
  samples : List ℚ
  ema : Option ℚ
  alpha : ℚ
  last_anomaly : Option String

/-- Model of `LatencyStats.add`: append the value (the deque evicts the oldest
sample once 200 are held) and fold it into the EMA. -/
def LatencyStats.add (s : LatencyStats) (value : ℚ) : LatencyStats :=
  { s with
    samples := dequeAppend 200 s.samples value
    ema := some (match s.ema with
      | none => value
      | some e => s.alpha * value + (1 - s.alpha) * e) }

open Classical in
/-- Model of `LatencyStats.zscore`.  The `try/except StatisticsError` around
`pstdev` is unreachable here (`pstdev` only raises on an empty list and
the guard ensures at least 10 samples), so it is not modelled. -/
noncomputable def LatencyStats.zscore (s : LatencyStats) (value : ℚ) : ℝ :=
  if s.samples.length < 10 then 0
  else if pstdev s.samples = 0 then 0
  else ((value : ℚ) - (mean s.samples : ℚ)) / pstdev s.samples

/-- Python truthiness-based `a or b` on an optional float: `b` when `a`
is `None` or `0.0`, else the value of `a`.  Used for
`self.ema or median` in `summary` and for
`self.latency[key].ema or latency_ms` in the anomaly gate. -/
def pyOr (a : Option ℚ) (b : ℚ) : ℚ :=
  match a with
  | none => b
  | some x => if x = 0 then b else x

/-- Python's `statistics.median`: middle element of the sorted list when
the length is odd, average of the two middle elements when even. -/
def median (l : List ℚ) : ℚ :=
  let s := List.insertionSort (· ≤ ·) l
  if l.length % 2 = 1 then s.getD (l.length / 2) 0
  else (s.getD (l.length / 2 - 1) 0 + s.getD (l.length / 2) 0) / 2

/-- The dictionary returned by `LatencyStats.summary`; `none` fields are
the keys absent from the `{"count": 0}` empty summary.  The 2-decimal
display rounding (`round(_, 2)`) is presentation and is not modelled;
values are kept exact. -/
structure LatencySummary where
  count : ℕ
  median_ms : Option ℚ
  p95_ms : Option ℚ
  ema_ms : Option ℚ
deriving DecidableEq

/-- Model of `LatencyStats.summary`: `p95 = sorted(samples)[int(0.95 * (n - 1))]`
(`int` truncates the nonnegative product, i.e. takes the floor), and
`ema_ms = self.ema or median` (Python `or`: the EMA field when set
*and nonzero*, else the median — `0.0` is falsy). -/
def LatencyStats.summary (s : LatencyStats) : LatencySummary :=
  if s.samples.length = 0 then ⟨0, none, none, none⟩
  else
    let md := median s.samples
    let sorted := List.insertionSort (· ≤ ·) s.samples
    ⟨s.samples.length,
     some md,
     some (sorted.getD ⌊(0.95 : ℚ) * ((s.samples.length : ℚ) - 1)⌋₊ 0),
     some (pyOr s.ema md)⟩

/-- The `UptimeStats` dataclass.  `window` is stored by the constructor
but the `results` deque is created with the literal `maxlen=200`
independently of it. -/
structure UptimeStats where
  window : ℕ
  results : List ℕ
deriving DecidableEq

/-- Model of `UptimeStats.add`: append `1 if success else 0`; the deque capacity
is the literal 200, not `self.window`. -/
def UptimeStats.add (u : UptimeStats) (success : Bool) : UptimeStats :=
  { u with results := dequeAppend 200 u.results (if success then 1 else 0) }

/-- Model of `UptimeStats.ratio`: success fraction over the window, 0.0 when
empty. -/
def UptimeStats.ratio (u : UptimeStats) : ℚ :=
  if u.results = [] then 0
  else (u.results.sum : ℚ) / u.results.length

/-- Repeated `UptimeStats.add` over a list of outcomes. -/
def UptimeStats.addAll (u : UptimeStats) (bs : List Bool) : UptimeStats :=
  bs.foldl UptimeStats.add u

/-- The per-key mutable state touched by `_check_and_analyze`: the
`LatencyStats` and `UptimeStats` registry entries for one
(target, resolver, rtype) key. -/
structure CheckState where
  latency : LatencyStats
  uptime : UptimeStats

/-- The fields of the per-probe result dictionary that the statistics
and anomaly logic produce (target/resolver/rtype echoes, the address
list, the error text and the wall-clock timestamp are carried through
verbatim and are not modelled here; the anomaly strings keep their
prefixes, with the interpolated numbers dropped). -/
structure CheckResult where
  ok : Bool
  latency_ms : ℚ
  zscore : ℝ
  uptime_window_ratio : ℚ
  latency_summary : LatencySummary
  anomaly : Option String

open Classical in
/-- Model of `DNSUptimerAI._check_and_analyze`, given the probe outcome `ok` and
its elapsed time `latency_ms`: record the outcome and the latency
(in that order, both before any statistic is read), then compute the
z-score and summary on the updated window, then run the anomaly
decision.  A detected anomaly overwrites `last_anomaly`. -/
noncomputable def checkAndAnalyze (st : CheckState) (ok : Bool)
    (latency_ms : ℚ) : CheckState × CheckResult :=
  let uptime' := st.uptime.add ok
  let latency' := st.latency.add latency_ms
  let z := latency'.zscore latency_ms
  let upt := uptime'.ratio
  let anomaly : Option String :=
    if ok = false then
      if upt < 0.95 ∧ uptime'.results.length ≥ 20 then
        some "Repeated failures"
      else
        some "Single failure"
    else if 3 ≤ z ∧ (pyOr latency'.ema latency_ms) * 1.5 < (latency_ms : ℚ) then
      some "Latency spike"
    else
      none
  (⟨{ latency' with
        last_anomaly := anomaly.orElse fun _ => latency'.last_anomaly },
    uptime'⟩,
   { ok := ok
     latency_ms := latency_ms
     zscore := z
     uptime_window_ratio := upt
     latency_summary := latency'.summary
     anomaly := anomaly })

/-- Outcome of the external DNS library call inside `_resolve_once`:
either an answer (the list of records, stringified) or a raised
exception collapsed to its text.  The `except Exception` clause catches
every raise — timeouts, NXDOMAIN/NODATA, network errors, malformed
responses — so the boundary is total. -/
inductive ResolveOutcome : Type
  | answer (addrs : List String)
  | raised (msg : String)
deriving DecidableEq

/-- The tuple `(ok, latency_ms, addrs, err)` returned by
`DNSUptimerAI._resolve_once`. -/
structure ProbeResult where
  ok : Bool
  latency_ms : ℚ
  addresses : Option (List String)
  error : Option String
deriving DecidableEq

/-- Model of `DNSUptimerAI._resolve_once`: both the success path and the
exception path measure the elapsed wall-clock time and return a tuple;
no exception escapes the function. -/
def resolveOnce (elapsed : ℚ) (o : ResolveOutcome) : ProbeResult :=
  match o with
  | .answer addrs => ⟨true, elapsed, some addrs, none⟩
  | .raised msg => ⟨false, elapsed, none, some msg⟩

/-- Whether the stop event (set at absolute time `stopAt`, if ever) is
observed as set at time `t` — `self._stop.is_set()`. -/
def stopSet (stopAt : Option ℚ) (t : ℚ) : Bool :=
  match stopAt with
  | none => false
  | some a => a ≤ t

/-- Wake-up time of `asyncio.wait_for(self._stop.wait(), timeout=interval)`
entered at time `e`: immediately if the stop event is already set,
at the stop time if it arrives during the sleep, else at the full
`interval` timeout. -/
def wakeTime (interval : ℚ) (stopAt : Option ℚ) (e : ℚ) : ℚ :=
  match stopAt with
  | none => e + interval
  | some a => if a ≤ e then e else min a (e + interval)

/-- Timed trace of `DNSUptimerAI.run_loop`, `fuel` bounding the number
of simulated iterations.  `k` numbers the wave, `t` is the current
time.  Each iteration re-checks the stop event, dispatches one full
wave (all probes gathered, taking `waveDur k` time) when it is not set,
then sleeps interruptibly.  Returns the start times of the dispatched
waves and the time the loop exited, if it did within `fuel`
iterations. -/
def runTrace (interval : ℚ) (stopAt : Option ℚ) (waveDur : ℕ → ℚ) :
    ℕ → ℕ → ℚ → List ℚ × Option ℚ
  | 0, _, _ => ([], none)
  | fuel + 1, k, t =>
    if stopSet stopAt t then ([], some t)
    else
      let e := t + waveDur k
      let rest := runTrace interval stopAt waveDur fuel (k + 1)
        (wakeTime interval stopAt e)
      (t :: rest.1, rest.2)

/-! ### Helper lemmas -/

lemma mean_replicate (n : ℕ) (c : ℚ) (hn : n ≠ 0) :
    mean (List.replicate n c) = c := by
  have h : ((n : ℚ)) ≠ 0 := Nat.cast_ne_zero.mpr hn
  rw [mean, List.sum_replicate, List.length_replicate, nsmul_eq_mul,
    mul_div_cancel_left₀ _ h]

lemma pvariance_replicate (n : ℕ) (c : ℚ) (hn : n ≠ 0) :
    pvariance (List.replicate n c) = 0 := by
  simp [pvariance, mean_replicate n c hn, List.map_replicate,
    List.sum_replicate]

/-! ### C5: cold-start suppression of the z-score -/

/-- C5: with fewer than 10 samples in the window, `zscore` returns
exactly 0.0, whatever the probed value. -/
theorem zscore_coldstart (s : LatencyStats) (x : ℚ)
    (h : s.samples.length < 10) : s.zscore x = 0 := by
  simp [LatencyStats.zscore, h]

/-- Witness for C5: the empty window has fewer than 10 samples, and the
z-score of 42 against it is 0. -/
theorem zscore_coldstart_witness :
    (⟨[], none, 1/4, none⟩ : LatencyStats).samples.length < 10
    ∧ LatencyStats.zscore ⟨[], none, 1/4, none⟩ 42 = 0 :=
  ⟨by simp, zscore_coldstart ⟨[], none, 1/4, none⟩ 42 (by simp)⟩

/-! ### C6: zero-variance guard of the z-score -/

/-- C6: with at least 10 samples all equal (population standard
deviation 0), `zscore` returns 0.0 instead of dividing by zero. -/
theorem zscore_zero_variance (s : LatencyStats) (c x : ℚ)
    (h10 : 10 ≤ s.samples.length) (hc : ∀ y ∈ s.samples, y = c) :
    s.zscore x = 0 := by
  have hn : s.samples.length ≠ 0 := by omega
  have hrep : s.samples = List.replicate s.samples.length c :=
    List.eq_replicate_of_mem hc
  have hvar : pvariance s.samples = 0 := by
    rw [hrep, pvariance_replicate _ _ (by simpa using hn)]
  have hsig : pstdev s.samples = 0 := by
    rw [pstdev, hvar]
    simp
  rw [LatencyStats.zscore, if_neg (by omega), if_pos hsig]

/-- Witness for C6: ten identical samples of 10 give z-score 0 for the
probed value 50. -/
theorem zscore_zero_variance_witness :
    10 ≤ (⟨List.replicate 10 10, some 10, 1/4, none⟩ : LatencyStats).samples.length
    ∧ (∀ y ∈ (⟨List.replicate 10 10, some 10, 1/4, none⟩ : LatencyStats).samples, y = (10 : ℚ))
    ∧ LatencyStats.zscore ⟨List.replicate 10 10, some 10, 1/4, none⟩ 50 = 0 :=
  ⟨by simp, by simp,
   zscore_zero_variance ⟨List.replicate 10 10, some 10, 1/4, none⟩ 10 50
     (by simp) (by simp)⟩

/-! ### C10: every probe latency enters the statistics -/

/-- C10: whatever the success flag, `_check_and_analyze` appends the
elapsed latency to the key's window (FIFO at capacity 200) and folds it
into the EMA. -/
theorem latency_recorded_regardless (st : CheckState) (ok : Bool) (x : ℚ) :
    (checkAndAnalyze st ok x).1.latency.samples
        = dequeAppend 200 st.latency.samples x
    ∧ (checkAndAnalyze st ok x).1.latency.ema
        = some (match st.latency.ema with
            | none => x
            | some e => st.latency.alpha * x + (1 - st.latency.alpha) * e) :=
  ⟨rfl, rfl⟩

/-! ### C8: the probe boundary never raises -/

/-- C8: `_resolve_once` is total over every resolution outcome: any
raised exception is collapsed to `success = false` with its message as
the error text and the elapsed time, while an answer yields
`success = true` with the addresses and no error text. -/
theorem resolve_once_total (elapsed : ℚ) (o : ResolveOutcome) :
    (resolveOnce elapsed o).latency_ms = elapsed
    ∧ ((resolveOnce elapsed o).ok = false ↔ ∃ msg, o = .raised msg)
    ∧ (∀ msg, o = .raised msg →
        (resolveOnce elapsed o).error = some msg
          ∧ (resolveOnce elapsed o).addresses = none)
    ∧ (∀ addrs, o = .answer addrs →
        (resolveOnce elapsed o).ok = true
          ∧ (resolveOnce elapsed o).error = none
          ∧ (resolveOnce elapsed o).addresses = some addrs) := by
  cases o <;> simp [resolveOnce]

/-- Witness for C8: a raised timeout at 7 ms elapsed maps to a failed
result carrying the error text. -/
theorem resolve_once_total_witness :
    (resolveOnce 7 (.raised "timeout")).latency_ms = 7
    ∧ ((resolveOnce 7 (.raised "timeout")).ok = false
        ↔ ∃ msg, ResolveOutcome.raised "timeout" = .raised msg)
    ∧ ((resolveOnce 7 (.raised "timeout")).error = some "timeout"
        ∧ (resolveOnce 7 (.raised "timeout")).addresses = none) :=
  ⟨(resolve_once_total 7 (.raised "timeout")).1,
   (resolve_once_total 7 (.raised "timeout")).2.1,
   (resolve_once_total 7 (.raised "timeout")).2.2.1 "timeout" rfl⟩

/-! ### C4: failed probes always produce a reason -/

/-- C4: on a failed probe the anomaly reason is never null; it is the
"repeated failures" reason exactly when, after recording the failure,
the key holds at least 20 outcomes with uptime ratio below 0.95, and
the "single failure" reason otherwise. -/
theorem failure_anomaly (st : CheckState) (x : ℚ) :
    (checkAndAnalyze st false x).2.anomaly ≠ none
    ∧ ((checkAndAnalyze st false x).2.anomaly = some "Repeated failures"
        ↔ ((st.uptime.add false).ratio < 0.95
            ∧ (st.uptime.add false).results.length ≥ 20))
    ∧ ((checkAndAnalyze st false x).2.anomaly = some "Single failure"
        ↔ ¬((st.uptime.add false).ratio < 0.95
            ∧ (st.uptime.add false).results.length ≥ 20)) := by
  by_cases h : ((st.uptime.add false).ratio < 0.95
      ∧ (st.uptime.add false).results.length ≥ 20)
  · refine ⟨?_, ?_, ?_⟩ <;> simp [checkAndAnalyze, h]
  · refine ⟨?_, ?_, ?_⟩ <;> simp [checkAndAnalyze, h]

/-! ### C3: the configured window capacity is ignored -/

set_option maxRecDepth 8000 in
/-- C3 (code bug): an `UptimeStats` constructed with `window = 50`
still retains 60 outcomes after 60 additions, because the `results`
deque is created with the literal `maxlen=200` and never consults the
stored `window` field. -/
theorem uptime_window_param_unused :
    (UptimeStats.addAll ⟨50, []⟩ (List.replicate 60 true)).window = 50
    ∧ (UptimeStats.addAll ⟨50, []⟩ (List.replicate 60 true)).results.length = 60 := by
  constructor <;> decide

/-! ### C7: summary reporting -/

lemma p95_index (n : ℕ) (hn : n ≠ 0) :
    ⌊(0.95 : ℚ) * ((n : ℚ) - 1)⌋₊ = 19 * (n - 1) / 20 := by
  obtain ⟨m, rfl⟩ : ∃ m, n = m + 1 := ⟨n - 1, by omega⟩
  have h1 : ((m + 1 : ℕ) : ℚ) - 1 = (m : ℚ) := by push_cast; ring
  have h2 : (0.95 : ℚ) * (m : ℚ) = ((19 * m : ℕ) : ℚ) / ((20 : ℕ) : ℚ) := by
    push_cast; ring
  rw [h1, h2, Nat.floor_div_nat, Nat.floor_natCast]
  omega

/-- C7: on a non-empty window of `n` samples, `summary` reports the
median by the standard sorted-middle rule and the p95 as the sorted
element at index `⌊0.95 * (n - 1)⌋ = 19 * (n - 1) / 20` (nearest rank,
not interpolated), with the EMA falling back to the median when unset
or zero (Python truthiness of `self.ema or median`); on an empty
window it yields the empty summary with no median/p95/ema. -/
theorem summary_spec (s : LatencyStats) :
    (s.samples = [] → s.summary = ⟨0, none, none, none⟩)
    ∧ (s.samples ≠ [] →
        s.summary = ⟨s.samples.length,
          some (if s.samples.length % 2 = 1
            then (List.insertionSort (· ≤ ·) s.samples).getD
              (s.samples.length / 2) 0
            else ((List.insertionSort (· ≤ ·) s.samples).getD
                (s.samples.length / 2 - 1) 0
              + (List.insertionSort (· ≤ ·) s.samples).getD
                (s.samples.length / 2) 0) / 2),
          some ((List.insertionSort (· ≤ ·) s.samples).getD
            (19 * (s.samples.length - 1) / 20) 0),
          some (pyOr s.ema (median s.samples))⟩) := by
  constructor
  · intro h
    simp [LatencyStats.summary, h]
  · intro h
    have hn : s.samples.length ≠ 0 := by simpa using h
    rw [LatencyStats.summary, if_neg hn, p95_index _ hn]
    rfl

/-- Witness for C7: the window `[3, 1, 2]` is non-empty and its summary
is count 3, median 2 (middle of the sorted samples), p95 2 (sorted
index `19 * 2 / 20 = 1`) and EMA fallback 2. -/
theorem summary_spec_witness :
    (⟨[3, 1, 2], none, 1/4, none⟩ : LatencyStats).samples ≠ []
    ∧ LatencyStats.summary ⟨[3, 1, 2], none, 1/4, none⟩
        = ⟨3, some 2, some 2, some 2⟩ := by
  refine ⟨by simp, ?_⟩
  have h := (summary_spec ⟨[3, 1, 2], none, 1/4, none⟩).2 (by simp)
  rw [h]
  decide

/-! ### Concrete z-score evaluations used by C1 and C2 -/

lemma mean_nine_one (a b : ℚ) :
    mean (List.replicate 9 a ++ [b]) = (9 * a + b) / 10 := by
  simp [mean, List.sum_replicate, nsmul_eq_mul]
  ring

lemma pvariance_nine_one (a b : ℚ) :
    pvariance (List.replicate 9 a ++ [b]) = 9 * (b - a) ^ 2 / 100 := by
  rw [pvariance]
  simp only [mean_nine_one]
  simp [List.map_replicate, List.sum_replicate, nsmul_eq_mul]
  ring

lemma pstdev_nine_one (a b : ℚ) (h : a ≤ b) :
    pstdev (List.replicate 9 a ++ [b]) = 3 * ((b : ℝ) - (a : ℝ)) / 10 := by
  have hab : (a : ℝ) ≤ (b : ℝ) := by exact_mod_cast h
  rw [pstdev, pvariance_nine_one]
  push_cast
  rw [show 9 * ((b : ℝ) - (a : ℝ)) ^ 2 / 100
      = (3 * ((b : ℝ) - (a : ℝ)) / 10) ^ 2 by ring]
  exact Real.sqrt_sq (by linarith)

lemma zscore_nine_one (a b v : ℚ) (e : Option ℚ) (al : ℚ) (an : Option String)
    (hab : a < b) :
    LatencyStats.zscore ⟨List.replicate 9 a ++ [b], e, al, an⟩ v
      = ((v : ℝ) - ((9 * (a : ℝ) + (b : ℝ)) / 10)) / (3 * ((b : ℝ) - (a : ℝ)) / 10) := by
  have hab' : (a : ℝ) < (b : ℝ) := by exact_mod_cast hab
  have hs := pstdev_nine_one a b hab.le
  have hm := mean_nine_one a b
  rw [LatencyStats.zscore]
  rw [if_neg (by simp), if_neg (by rw [hs]; intro hc; nlinarith), hs, hm]
  push_cast
  ring_nf

/-! ### C1: when the z-score is evaluated relative to `add` -/

/-- C1 (counterexample): with nine prior samples of 0, probing 10
records a z-score of 3 (computed on the window with 10 already
appended), while the z-score against the window before `add` is 0
(cold start, only 9 samples).  The recorded value therefore differs
from the z-score of the prior window. -/
theorem zscore_before_add_counterexample :
    (checkAndAnalyze ⟨⟨List.replicate 9 0, some 0, 1/4, none⟩, ⟨200, []⟩⟩
        true 10).2.zscore
      ≠ LatencyStats.zscore ⟨List.replicate 9 0, some 0, 1/4, none⟩ 10 := by
  have hadd : LatencyStats.add ⟨List.replicate 9 (0 : ℚ), some 0, 1/4, none⟩ 10
      = ⟨List.replicate 9 (0 : ℚ) ++ [10], some (5/2), 1/4, none⟩ := by
    simp [LatencyStats.add, dequeAppend]
    norm_num
  have h1 : (checkAndAnalyze ⟨⟨List.replicate 9 0, some 0, 1/4, none⟩, ⟨200, []⟩⟩
        true 10).2.zscore
      = LatencyStats.zscore ⟨List.replicate 9 (0 : ℚ) ++ [10], some (5/2), 1/4, none⟩ 10 := by
    show LatencyStats.zscore
      (LatencyStats.add ⟨List.replicate 9 (0 : ℚ), some 0, 1/4, none⟩ 10) 10 = _
    rw [hadd]
  have h2 : LatencyStats.zscore ⟨List.replicate 9 (0 : ℚ), some 0, 1/4, none⟩ 10 = 0 := by
    rw [LatencyStats.zscore, if_pos (by simp)]
  rw [h1, h2, zscore_nine_one 0 10 10 _ _ _ (by norm_num)]
  norm_num

/-- C1 (amended): the z-score recorded in the result is evaluated
against the window *after* the new sample is appended (and after the
EMA update) — `add` runs first and `zscore` sees the updated window. -/
theorem zscore_recorded_after_add (st : CheckState) (ok : Bool) (x : ℚ) :
    (checkAndAnalyze st ok x).2.zscore = (st.latency.add x).zscore x
    ∧ (st.latency.add x).samples = dequeAppend 200 st.latency.samples x :=
  ⟨rfl, rfl⟩

/-! ### C2: the dual anomaly gate on successful probes -/

lemma anomaly_success_iff (st : CheckState) (x : ℚ) :
    (checkAndAnalyze st true x).2.anomaly ≠ none
      ↔ (3 ≤ (st.latency.add x).zscore x
          ∧ (pyOr (st.latency.add x).ema x) * 1.5 < x) := by
  by_cases h : (3 ≤ (st.latency.add x).zscore x
      ∧ (pyOr (st.latency.add x).ema x) * 1.5 < x)
  · simp [checkAndAnalyze, h]
  · simp [checkAndAnalyze, h]

/-- C2 (counterexample): nine prior samples of 100 with prior EMA 100,
successful probe of 160 ms: the recorded z-score is 3 (≥ 3.0) and 160
exceeds 1.5 × the prior EMA (150), yet the anomaly reason is null —
the code compares against 1.5 × the *updated* EMA (1.5 × 115 = 172.5),
not the EMA before the update. -/
theorem dual_gate_prior_ema_counterexample :
    3 ≤ (checkAndAnalyze ⟨⟨List.replicate 9 100, some 100, 1/4, none⟩, ⟨200, []⟩⟩
        true 160).2.zscore
    ∧ (⟨List.replicate 9 100, some 100, 1/4, none⟩ : LatencyStats).ema = some 100
    ∧ (100 : ℚ) * 1.5 < 160
    ∧ (checkAndAnalyze ⟨⟨List.replicate 9 100, some 100, 1/4, none⟩, ⟨200, []⟩⟩
        true 160).2.anomaly = none := by
  have hadd : LatencyStats.add ⟨List.replicate 9 (100 : ℚ), some 100, 1/4, none⟩ 160
      = ⟨List.replicate 9 (100 : ℚ) ++ [160], some 115, 1/4, none⟩ := by
    simp [LatencyStats.add, dequeAppend]
    norm_num
  have hz : (checkAndAnalyze ⟨⟨List.replicate 9 100, some 100, 1/4, none⟩, ⟨200, []⟩⟩
        true 160).2.zscore
      = LatencyStats.zscore ⟨List.replicate 9 (100 : ℚ) ++ [160], some 115, 1/4, none⟩ 160 := by
    show LatencyStats.zscore
      (LatencyStats.add ⟨List.replicate 9 (100 : ℚ), some 100, 1/4, none⟩ 160) 160 = _
    rw [hadd]
  refine ⟨?_, rfl, by norm_num, ?_⟩
  · rw [hz, zscore_nine_one 100 160 160 _ _ _ (by norm_num)]
    norm_num
  · by_contra hne
    obtain ⟨-, h2⟩ := (anomaly_success_iff _ 160).mp hne
    rw [hadd] at h2
    norm_num [pyOr] at h2

/-- C2 (amended): on a successful probe with a prior EMA, the anomaly
reason is non-null iff the recorded z-score is at least 3.0 AND the
elapsed latency exceeds 1.5 × the EMA as *updated* by this sample
(`α·x + (1-α)·ema_before`, assumed nonzero so Python's `or` fallback
is inert). -/
theorem anomaly_gate_post_ema (st : CheckState) (x e : ℚ)
    (he : st.latency.ema = some e)
    (hne : st.latency.alpha * x + (1 - st.latency.alpha) * e ≠ 0) :
    (checkAndAnalyze st true x).2.anomaly ≠ none
      ↔ (3 ≤ (checkAndAnalyze st true x).2.zscore
          ∧ (st.latency.alpha * x + (1 - st.latency.alpha) * e) * 1.5 < x) := by
  have hz : (checkAndAnalyze st true x).2.zscore = (st.latency.add x).zscore x := rfl
  have hema : (st.latency.add x).ema
      = some (st.latency.alpha * x + (1 - st.latency.alpha) * e) := by
    simp [LatencyStats.add, he]
  rw [hz, anomaly_success_iff, hema]
  simp [pyOr, hne]

/-- Witness for C2 (amended): the prior EMA is 100, the updated EMA
115 is nonzero, and the gate for the 160 ms probe is exactly the
stated iff. -/
theorem anomaly_gate_post_ema_witness :
    (⟨⟨List.replicate 9 100, some 100, 1/4, none⟩, ⟨200, []⟩⟩ : CheckState).latency.ema
        = some 100
    ∧ ((1/4 : ℚ) * 160 + (1 - 1/4) * 100 ≠ 0)
    ∧ ((checkAndAnalyze ⟨⟨List.replicate 9 100, some 100, 1/4, none⟩, ⟨200, []⟩⟩
          true 160).2.anomaly ≠ none
        ↔ (3 ≤ (checkAndAnalyze ⟨⟨List.replicate 9 100, some 100, 1/4, none⟩, ⟨200, []⟩⟩
              true 160).2.zscore
            ∧ ((1/4 : ℚ) * 160 + (1 - 1/4) * 100) * 1.5 < 160)) :=
  ⟨rfl, by norm_num,
   anomaly_gate_post_ema ⟨⟨List.replicate 9 100, some 100, 1/4, none⟩, ⟨200, []⟩⟩
     160 100 rfl (by norm_num)⟩

/-! ### C9: cooperative stop of the monitor loop -/

lemma runTrace_wave_before_stop (a interval : ℚ) (waveDur : ℕ → ℚ) :
    ∀ fuel k t s, s ∈ (runTrace interval (some a) waveDur fuel k t).1 → s < a := by
  intro fuel
  induction fuel with
  | zero =>
    intro k t s hs
    simp [runTrace] at hs
  | succ n ih =>
    intro k t s hs
    by_cases h : a ≤ t
    · simp [runTrace, stopSet, h] at hs
    · simp only [runTrace, stopSet, decide_eq_true_eq, h, if_false,
        List.mem_cons] at hs
      rcases hs with rfl | hs
      · exact lt_of_not_le h
      · exact ih _ _ _ hs

lemma runTrace_stop_during_sleep (a interval : ℚ) (waveDur : ℕ → ℚ) :
    ∀ fuel k t, ¬ a ≤ t → t + waveDur k < a → a ≤ t + waveDur k + interval →
      runTrace interval (some a) waveDur (fuel + 2) k t = ([t], some a) := by
  intro fuel k t h1 h2 h3
  have hw : wakeTime interval (some a) (t + waveDur k) = a := by
    rw [wakeTime]
    rw [if_neg (not_le.mpr h2), min_eq_left h3]
  rw [show fuel + 2 = (fuel + 1) + 1 by omega, runTrace]
  rw [if_neg (by simp [stopSet, h1])]
  simp only [hw]
  rw [runTrace]
  rw [if_pos (by simp [stopSet])]

/-- C9: in the timed trace of `run_loop` with the stop event set at
time `a`, (1) every dispatched wave starts strictly before `a` — once
the stop signal is observed no new wave is ever started — and (2) if
the stop arrives during the inter-wave sleep following the wave
dispatched at `t` (after its gather ends, but within the `interval`
sleep), the sleep wakes early and the loop exits exactly at `a`, with
no further wave, instead of sleeping the full interval. -/
theorem run_loop_stop_spec (a interval : ℚ) (waveDur : ℕ → ℚ) :
    (∀ fuel k t s, s ∈ (runTrace interval (some a) waveDur fuel k t).1 → s < a)
    ∧ (∀ fuel k t, ¬ a ≤ t → t + waveDur k < a → a ≤ t + waveDur k + interval →
        runTrace interval (some a) waveDur (fuel + 2) k t = ([t], some a)) :=
  ⟨runTrace_wave_before_stop a interval waveDur,
   runTrace_stop_during_sleep a interval waveDur⟩

/-- Witness for C9: interval 5, one wave of duration 1 starting at time
0, stop at time 4 (during the sleep over (1, 6]): the trace dispatches
only the wave at 0 and exits at 4. -/
theorem run_loop_stop_spec_witness :
    (0 ∈ (runTrace 5 (some 4) (fun _ => 1) 3 0 0).1 → (0 : ℚ) < 4)
    ∧ (¬ (4 : ℚ) ≤ 0 ∧ (0 : ℚ) + 1 < 4 ∧ (4 : ℚ) ≤ 0 + 1 + 5)
    ∧ runTrace 5 (some 4) (fun _ => 1) 3 0 0 = ([0], some 4) :=
  ⟨fun h => (run_loop_stop_spec 4 5 (fun _ => 1)).1 3 0 0 0 h,
   ⟨by norm_num, by norm_num, by norm_num⟩,
   (run_loop_stop_spec 4 5 (fun _ => 1)).2 1 0 0
     (by norm_num) (by norm_num) (by norm_num)⟩

end DNSUptimer
